import Mathlib

/-!
Verification of the research-orchestration pipeline in
`src/claudeagenttry2/research_orchestrator.py` (class `ResearchOrchestrator`).

The Python code is shallowly embedded as pure Lean functions.  Network calls
(the Serper HTTP request, the two language-generation calls, the per-URL
content fetch) are external collaborators; each is modelled as an explicit
input (an outcome value or an oracle function) while every piece of control
flow, data shaping and error handling that the repository itself performs is
translated directly from the source.
-/

/-! ## A model of Python dict/JSON values and of `json.loads`

`_refine_queries` parses the generation output with `json.loads` and the
fallback/return values are Python dicts, so we need a JSON value type.
Numbers are kept as their source lexeme (no claim depends on numeric
values).  `json.loads` is modelled by a fuel-based recursive-descent
function over the character list; it accepts exactly the inputs the CPython
decoder accepts on the JSON fragment exercised here (strict strings with
escapes, `true`/`false`/`null`, `NaN`/`Infinity`/`-Infinity`, numbers,
arrays, objects, no trailing data). -/

inductive Json where
  | null : Json
  | bool (b : Bool) : Json
  | num (lit : String) : Json
  | str (s : String) : Json
  | arr (elems : List Json) : Json
  | obj (members : List (String × Json)) : Json
deriving Repr, Inhabited

/-- Hexadecimal digit value, used for `\uXXXX` escapes. -/
def hexVal (c : Char) : Option Nat :=
  let n := c.toNat
  if 48 ≤ n ∧ n ≤ 57 then some (n - 48)
  else if 97 ≤ n ∧ n ≤ 102 then some (n - 87)
  else if 65 ≤ n ∧ n ≤ 70 then some (n - 55)
  else none

/-- Single-character JSON string escapes. -/
def escChar : Char → Option Char
  | '"' => some '"'
  | '\\' => some '\\'
  | '/' => some '/'
  | 'b' => some (Char.ofNat 8)
  | 'f' => some (Char.ofNat 12)
  | 'n' => some '\n'
  | 'r' => some '\r'
  | 't' => some '\t'
  | _ => none

/-- Body of a JSON string after the opening quote; returns the decoded
characters and the input remaining after the closing quote.  Raw control
characters are rejected (CPython `strict=True`).  Astral `\uXXXX` escapes
outside the valid `Char` range decode to the default character; no input
in this development uses them. -/
def parseStringBody : List Char → Option (List Char × List Char)
  | [] => none
  | '"' :: rest => some ([], rest)
  | '\\' :: 'u' :: a :: b :: c :: d :: rest =>
    match hexVal a, hexVal b, hexVal c, hexVal d with
    | some ha, some hb, some hc, some hd =>
      match parseStringBody rest with
      | some (cs, r) => some (Char.ofNat (((ha * 16 + hb) * 16 + hc) * 16 + hd) :: cs, r)
      | none => none
    | _, _, _, _ => none
  | '\\' :: e :: rest =>
    match escChar e with
    | some ch =>
      match parseStringBody rest with
      | some (cs, r) => some (ch :: cs, r)
      | none => none
    | none => none
  | c :: rest =>
    if c.toNat < 32 then none
    else
      match parseStringBody rest with
      | some (cs, r) => some (c :: cs, r)
      | none => none

/-- Integer part of a JSON number: `0`, or a nonzero digit followed by digits. -/
def parseUIntPart : List Char → Option (List Char × List Char)
  | '0' :: rest => some (['0'], rest)
  | c :: rest =>
    if c.isDigit then
      let p := rest.span Char.isDigit
      some (c :: p.1, p.2)
    else none
  | [] => none

/-- Optional fractional part `.digits`. -/
def parseFrac : List Char → Option (List Char × List Char)
  | '.' :: rest =>
    let p := rest.span Char.isDigit
    if p.1.isEmpty then none else some ('.' :: p.1, p.2)
  | s => some ([], s)

/-- Optional exponent part `e[+-]?digits`. -/
def parseExp : List Char → Option (List Char × List Char)
  | c :: rest =>
    if c == 'e' || c == 'E' then
      match rest with
      | s :: rest2 =>
        if s == '+' || s == '-' then
          let p := rest2.span Char.isDigit
          if p.1.isEmpty then none else some (c :: s :: p.1, p.2)
        else
          let p := rest.span Char.isDigit
          if p.1.isEmpty then none else some (c :: p.1, p.2)
      | [] => none
    else some ([], c :: rest)
  | [] => some ([], [])

/-- Unsigned JSON number lexeme. -/
def parseNumberCore (s : List Char) : Option (List Char × List Char) :=
  match parseUIntPart s with
  | none => none
  | some (ip, r1) =>
    match parseFrac r1 with
    | none => none
    | some (fp, r2) =>
      match parseExp r2 with
      | none => none
      | some (ep, r3) => some (ip ++ fp ++ ep, r3)

/-- JSON number lexeme with optional leading minus sign. -/
def parseNumberLex : List Char → Option (List Char × List Char)
  | '-' :: rest =>
    match parseNumberCore rest with
    | some (lex, r) => some ('-' :: lex, r)
    | none => none
  | s => parseNumberCore s

/-- JSON insignificant whitespace (space, tab, newline, carriage return). -/
def jsonSkipWs : List Char → List Char
  | [] => []
  | c :: rest =>
    if c == ' ' || c == '\t' || c == '\n' || c == '\r' then jsonSkipWs rest
    else c :: rest

mutual

/-- Recursive-descent JSON value, fuelled by input length. -/
def jsonParseVal : Nat → List Char → Option (Json × List Char)
  | 0, _ => none
  | Nat.succ fuel, s0 =>
    match jsonSkipWs s0 with
    | '{' :: rest =>
      match jsonSkipWs rest with
      | '}' :: r2 => some (.obj [], r2)
      | r => match jsonParseMembers fuel r with
             | some (kvs, r2) => some (.obj kvs, r2)
             | none => none
    | '[' :: rest =>
      match jsonSkipWs rest with
      | ']' :: r2 => some (.arr [], r2)
      | r => match jsonParseItems fuel r with
             | some (vs, r2) => some (.arr vs, r2)
             | none => none
    | '"' :: rest =>
      match parseStringBody rest with
      | some (cs, r) => some (.str (String.mk cs), r)
      | none => none
    | 't' :: 'r' :: 'u' :: 'e' :: r => some (.bool true, r)
    | 'f' :: 'a' :: 'l' :: 's' :: 'e' :: r => some (.bool false, r)
    | 'n' :: 'u' :: 'l' :: 'l' :: r => some (.null, r)
    | 'N' :: 'a' :: 'N' :: r => some (.num "NaN", r)
    | 'I' :: 'n' :: 'f' :: 'i' :: 'n' :: 'i' :: 't' :: 'y' :: r => some (.num "Infinity", r)
    | '-' :: 'I' :: 'n' :: 'f' :: 'i' :: 'n' :: 'i' :: 't' :: 'y' :: r =>
      some (.num "-Infinity", r)
    | s =>
      match parseNumberLex s with
      | some (lex, r) => some (.num (String.mk lex), r)
      | none => none

/-- One or more `"key": value` members, consuming the closing brace. -/
def jsonParseMembers : Nat → List Char → Option (List (String × Json) × List Char)
  | 0, _ => none
  | Nat.succ fuel, s0 =>
    match jsonSkipWs s0 with
    | '"' :: rest =>
      match parseStringBody rest with
      | none => none
      | some (key, r1) =>
        match jsonSkipWs r1 with
        | ':' :: r3 =>
          match jsonParseVal fuel r3 with
          | none => none
          | some (v, r4) =>
            match jsonSkipWs r4 with
            | ',' :: r6 =>
              match jsonParseMembers fuel r6 with
              | some (kvs, r7) => some ((String.mk key, v) :: kvs, r7)
              | none => none
            | '}' :: r6 => some ([(String.mk key, v)], r6)
            | _ => none
        | _ => none
    | _ => none

/-- One or more array items, consuming the closing bracket. -/
def jsonParseItems : Nat → List Char → Option (List Json × List Char)
  | 0, _ => none
  | Nat.succ fuel, s0 =>
    match jsonParseVal fuel s0 with
    | none => none
    | some (v, r1) =>
      match jsonSkipWs r1 with
      | ',' :: r2 =>
        match jsonParseItems fuel r2 with
        | some (vs, r3) => some (v :: vs, r3)
        | none => none
      | ']' :: r2 => some ([v], r2)
      | _ => none

end

/-- Model of `json.loads`: parse one value and require only whitespace after
it.  `none` corresponds to `json.JSONDecodeError`. -/
def jsonParse (s : String) : Option Json :=
  match jsonParseVal (s.data.length + 1) s.data with
  | some (v, rest) => if jsonSkipWs rest = [] then some v else none
  | none => none

/-! ## Python dict and string helpers used by the orchestrator -/

/-- Python `dict` lookup on the insertion list of an object: duplicate keys
overwrite, so the last binding wins. -/
def jsonLookup (kvs : List (String × Json)) (k : String) : Option Json :=
  kvs.foldl (fun acc kv => if kv.1 = k then some kv.2 else acc) none

/-- Python `d.get(k, default)`; all call sites pass dicts. -/
def jsonGetD (j : Json) (k : String) (d : Json) : Json :=
  match j with
  | .obj kvs =>
    match jsonLookup kvs k with
    | some v => v
    | none => d
  | _ => d

/-- Exceptions this embedding distinguishes: `KeyError` from a dict
subscript, `TypeError` from subscripting a non-dict, and any other fault
carried as text. -/
inductive PyErr where
  | keyError (k : String) : PyErr
  | typeError (msg : String) : PyErr
  | other (msg : String) : PyErr
deriving Repr, DecidableEq

/-- Python `value[k]` with a string key: `KeyError` on a missing key,
`TypeError` when the value is not a dict. -/
def pySubscript (j : Json) (k : String) : Except PyErr Json :=
  match j with
  | .obj kvs =>
    match jsonLookup kvs k with
    | some v => .ok v
    | none => .error (.keyError k)
  | _ => .error (.typeError "not subscriptable by string key")

/-- Python truthiness of a JSON value (`if query:`).  A number is falsy
exactly when its mantissa has no nonzero digit; the letter check keeps
`NaN`/`Infinity` truthy. -/
def pyTruthy : Json → Bool
  | .null => false
  | .bool b => b
  | .num lit =>
    (lit.data.takeWhile fun c => c != 'e' && c != 'E').any
      fun c => (c.isDigit && c != '0') || c.isAlpha
  | .str s => s != ""
  | .arr xs => !xs.isEmpty
  | .obj kvs => !kvs.isEmpty

/-- Characters removed by Python `str.strip()` with no argument. -/
def pyIsSpace (c : Char) : Bool :=
  c == ' ' || c == '\t' || c == '\n' || c == '\r' || c == '\x0b' || c == '\x0c'

/-- Python `s.strip()`. -/
def pyStrip (s : String) : String :=
  String.mk (((s.data.dropWhile pyIsSpace).reverse.dropWhile pyIsSpace).reverse)

/-- Drop `sep` from the front of `s` when it is a prefix. -/
def dropPre : List Char → List Char → Option (List Char)
  | [], s => some s
  | _ :: _, [] => none
  | c :: cs, d :: ds => if c = d then dropPre cs ds else none

/-- Worker for Python `str.split` on a non-empty separator: leftmost,
non-overlapping occurrences.  Fuel is the input length plus one. -/
def pySplitList (sep : List Char) : Nat → List Char → List (List Char)
  | 0, s => [s]
  | Nat.succ fuel, s =>
    match s with
    | [] => [[]]
    | c :: rest =>
      match dropPre sep s with
      | some rem => [] :: pySplitList sep fuel rem
      | none =>
        match pySplitList sep fuel rest with
        | [] => [[c]]
        | p :: ps => (c :: p) :: ps

/-- Python `s.split(sep)` for a non-empty separator. -/
def pySplit (s sep : String) : List String :=
  (pySplitList sep.data (s.data.length + 1) s.data).map String.mk

/-- List prefix test (`isPre p s` holds when `p` begins `s`). -/
def isPre : List Char → List Char → Bool
  | [], _ => true
  | _ :: _, [] => false
  | c :: cs, d :: ds => c == d && isPre cs ds

/-- Python `s.startswith(p)`. -/
def pyStartsWith (s p : String) : Bool := isPre p.data s.data

/-- Python `s[:n]` on strings (character slicing). -/
def pyTake (n : Nat) (s : String) : String := String.mk (s.data.take n)

/-! ## `_refine_queries` (QueryExpander) -/

/-- The deterministic fallback dict built on `json.JSONDecodeError`
(`research_orchestrator.py` lines 223-233). -/
def fallbackJson (user_query : String) : Json :=
  .obj [("original", .str user_query),
        ("primary", .str user_query),
        ("orthogonal_1", .str (user_query ++ " latest research")),
        ("orthogonal_2", .str (user_query ++ " expert analysis")),
        ("reasoning", .obj [("primary", .str "Using original query"),
                            ("orthogonal_1", .str "Latest research angle"),
                            ("orthogonal_2", .str "Expert analysis angle")])]

/-- The response clean-up of `_refine_queries` (lines 207-211): strip
whitespace, then unwrap a fenced code block when the text starts with
one. -/
def stripResponse (response_text : String) : String :=
  let t := pyStrip response_text
  if pyStartsWith t "```json" then
    pyStrip ((pySplit ((pySplit t "```json").getD 1 "") "```").getD 0 "")
  else if pyStartsWith t "```" then
    pyStrip ((pySplit ((pySplit t "```").getD 1 "") "```").getD 0 "")
  else t

/-- `_refine_queries` (lines 194-233), with the generation response text as
input.  The `try` block catches only `json.JSONDecodeError`; when parsing
succeeds the three status-log f-strings subscript `refined["primary"]`,
`refined["orthogonal_1"]` and `refined["orthogonal_2"]` in that order, and
any `KeyError`/`TypeError` they raise escapes the function. -/
def refine_queries (user_query : String) (response_text : String) : Except PyErr Json :=
  match jsonParse (stripResponse response_text) with
  | none => .ok (fallbackJson user_query)
  | some refined =>
    match pySubscript refined "primary" with
    | .error e => .error e
    | .ok _ =>
      match pySubscript refined "orthogonal_1" with
      | .error e => .error e
      | .ok _ =>
        match pySubscript refined "orthogonal_2" with
        | .error e => .error e
        | .ok _ => .ok refined

/-! ## `serper_search` (SearchClient) -/

/-- One organic hit from the Serper response.  The fields are optional
because the code reads them with `result.get(...)` defaults. -/
structure SearchHit where
  title : Option String
  link : Option String
  snippet : Option String
deriving Repr, DecidableEq

/-- Outcome of the single `requests.post` attempt inside `serper_search`:
either a parsed response (organic hits plus the `searchParameters` object)
or an exception raised by the transport / `raise_for_status` / JSON
decoding, carried as its message. -/
inductive HttpOutcome where
  | ok (organic : List SearchHit) (searchParameters : Json) : HttpOutcome
  | exn (message : String) : HttpOutcome

/-- The dict returned by `serper_search`; optional fields model keys that
are present only on one of the two return paths. -/
structure SerperResult where
  query : String
  num_results : Option Nat
  results : List SearchHit
  search_metadata : Option Json
  error : Option String
deriving Repr

/-- `serper_search` (lines 60-98): every transport or status error is caught
by the blanket `except` and turned into a failure dict carrying the query,
the error text and an empty result list. -/
def serper_search (query : String) (http : HttpOutcome) : SerperResult :=
  match http with
  | .ok organic params =>
    { query := query, num_results := some organic.length, results := organic,
      search_metadata := some params, error := none }
  | .exn e =>
    { query := query, num_results := none, results := [],
      search_metadata := none, error := some e }

/-! ## `_run_research_subagent` (ResearchBranch) -/

/-- `_fetch_url_content` (lines 350-379): any exception yields `None`, and
an empty accumulated response is normalised to `None` by
`return content if content else None`.  The raw generation outcome per URL
is an input. -/
def fetch_url_content (raw : Except String String) : Option String :=
  match raw with
  | .error _ => none
  | .ok c => if c = "" then none else some c

/-- Python truthiness of an optional string (`if content`). -/
def pyTruthyStr : Option String → Bool
  | none => false
  | some s => s != ""

/-- One article dict (lines 327-335). -/
structure Article where
  position : Nat
  title : String
  url : String
  snippet : String
  content_preview : String
  content_length : Nat
  scraped : Bool
deriving Repr, DecidableEq

/-- The body of one iteration of the scraping loop (lines 316-337):
hits without a `link` are skipped, otherwise the article dict is built
from the hit and the fetch outcome.  Note the ellipsis is appended
unconditionally on the truthy-content path. -/
def mkArticle (idx : Nat) (hit : SearchHit) (fetch : String → Except String String) :
    Option Article :=
  let url := hit.link.getD ""
  let title := hit.title.getD "No title"
  let snippet := hit.snippet.getD ""
  if url = "" then none
  else
    let content := fetch_url_content (fetch url)
    some { position := idx, title := title, url := url, snippet := snippet,
           content_preview :=
             if pyTruthyStr content then pyTake 500 (content.getD "") ++ "..." else snippet,
           content_length := if pyTruthyStr content then (content.getD "").length else 0,
           scraped := content.isSome }

/-- The scraping loop `for idx, result in enumerate(results_to_scrape, 1)`:
the index advances on every hit, including skipped ones. -/
def buildArticlesFrom (fetch : String → Except String String) :
    Nat → List SearchHit → List Article
  | _, [] => []
  | idx, hit :: rest =>
    match mkArticle idx hit fetch with
    | none => buildArticlesFrom fetch (idx + 1) rest
    | some a => a :: buildArticlesFrom fetch (idx + 1) rest

/-- One branch-report dict.  `query` is absent on the fan-out error path,
`num_articles`/`search_metadata` are absent on the two failure paths and
`error` is absent on the success path. -/
structure BranchReport where
  query_type : String
  query : Option String
  error : Option String
  articles : List Article
  num_articles : Option Nat
  search_metadata : Option Json
deriving Repr

/-- `_run_research_subagent` (lines 290-348): search once; on a search
error or zero hits return the failure report; otherwise scrape the top
`num_results` hits sequentially and return the populated report. -/
def run_research_subagent (query : String) (query_type : String) (num_results : Nat)
    (http : HttpOutcome) (fetch : String → Except String String) : BranchReport :=
  let search_results := serper_search query http
  if search_results.error.isSome || search_results.results.isEmpty then
    { query_type := query_type, query := some query,
      error := some (search_results.error.getD "No results found"),
      articles := [], num_articles := none, search_metadata := none }
  else
    let results_to_scrape := search_results.results.take num_results
    let articles := buildArticlesFrom fetch 1 results_to_scrape
    { query_type := query_type, query := some query, error := none,
      articles := articles, num_articles := some articles.length,
      search_metadata := some (search_results.search_metadata.getD (.obj [])) }

/-! ## `_execute_parallel_research` (fan-out) -/

/-- The canonical branch order (line 263). -/
def query_types_list : List String := ["primary", "orthogonal_1", "orthogonal_2"]

/-- Task construction (lines 265-269): one task per query type whose value
in the refined dict is truthy, in canonical order. -/
def branchTasks (refined : Json) : List (Json × String) :=
  query_types_list.filterMap fun qt =>
    let query := jsonGetD refined qt (.str "")
    if pyTruthy query then some (query, qt) else none

/-- Post-`gather` conversion of one outcome (lines 277-287): an exception
becomes an error report tagged with `query_types[i]`; a report is kept
as-is. -/
def convertOutcome (qt : String) (r : Except String BranchReport) : BranchReport :=
  match r with
  | .ok rep => rep
  | .error e =>
    { query_type := qt, query := none, error := some e, articles := [],
      num_articles := none, search_metadata := none }

/-- The `for i, result in enumerate(results)` loop over gathered outcomes. -/
def processResults : Nat → List (Except String BranchReport) → List BranchReport
  | _, [] => []
  | i, r :: rest => convertOutcome (query_types_list.getD i "") r :: processResults (i + 1) rest

/-- `_execute_parallel_research` (lines 235-288).  `asyncio.gather` with
`return_exceptions=True` returns one outcome per task in task order
regardless of completion order; a branch task is abstracted as an oracle
from (query value, query type) to either a report or a raised fault. -/
def execute_parallel_research (refined : Json)
    (runBranch : Json → String → Except String BranchReport) : List BranchReport :=
  let tasks := branchTasks refined
  let results := tasks.map fun t => runBranch t.1 t.2
  processResults 0 results

/-- The report produced for one query type by the fan-out under a full
query set: the branch outcome, converted at the boundary when it is a
fault. -/
def branchSettle (refined : Json) (runBranch : Json → String → Except String BranchReport)
    (qt : String) : BranchReport :=
  convertOutcome qt (runBranch (jsonGetD refined qt (.str "")) qt)

/-! ## `_generate_report` (ReportSynthesizer) and the orchestrator -/

/-- One article entry of the aggregate prompt data (lines 400-405). -/
structure ArticleSummary where
  title : String
  url : String
  snippet : String
  content_preview : String
deriving Repr, DecidableEq

/-- One branch entry of the aggregate prompt data (lines 395-408). -/
structure BranchSummary where
  query_type : String
  query : Option String
  num_articles : Nat
  articles : List ArticleSummary
deriving Repr, DecidableEq

/-- The aggregate passed to the synthesis generation call (lines 388-409). -/
structure ResearchSummary where
  original_query : String
  refined_queries : Json
  results_summary : List BranchSummary
deriving Repr

def summarizeArticle (a : Article) : ArticleSummary :=
  { title := a.title, url := a.url, snippet := a.snippet,
    content_preview := pyTake 300 a.content_preview }

def summarizeBranch (r : BranchReport) : BranchSummary :=
  { query_type := r.query_type, query := r.query,
    num_articles := r.num_articles.getD 0,
    articles := (r.articles.take 5).map summarizeArticle }

/-- `research_summary` as built by `_generate_report`: the original query,
the full refined query set, and per branch the top 5 articles with
previews cut to 300 characters. -/
def build_research_summary (original_query : String) (refined : Json)
    (research_results : List BranchReport) : ResearchSummary :=
  { original_query := original_query, refined_queries := refined,
    results_summary := research_results.map summarizeBranch }

/-- `_generate_report` (lines 381-478): build the aggregate, then hand it
to the generation call (an oracle).  The call is not wrapped in any
`try`, so its fault is the function's fault. -/
def generate_report (original_query : String) (refined : Json)
    (research_results : List BranchReport)
    (gen : ResearchSummary → Except String String) : Except String String :=
  gen (build_research_summary original_query refined research_results)

/-- The dict returned by a successful run (lines 150-155). -/
structure OrchestrationResult where
  session_dir : String
  queries : Json
  results : List BranchReport
  report : String

/-- `research_with_orchestrator` (lines 100-155): refine (uncaught faults
propagate), fan out, persist (opaque sink, not modelled), synthesize
(uncaught faults propagate), return the bundle. -/
def research_with_orchestrator (session_dir : String) (user_query : String)
    (response_text : String)
    (runBranch : Json → String → Except String BranchReport)
    (gen : ResearchSummary → Except String String) : Except PyErr OrchestrationResult :=
  match refine_queries user_query response_text with
  | .error e => .error e
  | .ok refined =>
    let research_results := execute_parallel_research refined runBranch
    match generate_report user_query refined research_results gen with
    | .error e => .error (.other e)
    | .ok final_report =>
      .ok { session_dir := session_dir, queries := refined,
            results := research_results, report := final_report }

/-! ## Concrete fixtures used by witnesses and counterexamples -/

/-- A search hit with title, link and snippet present. -/
def hitX : SearchHit := { title := some "T", link := some "http://x", snippet := some "snip" }

/-- A search hit whose `link` key is absent. -/
def hitNoLink : SearchHit := { title := some "N", link := none, snippet := some "s" }

/-- A second search hit with a link. -/
def hitY : SearchHit := { title := some "Y", link := some "http://y", snippet := some "sy" }

/-- A search outcome with one organic hit. -/
def httpW : HttpOutcome := .ok [hitX] (Json.obj [])

/-- A fetch oracle whose every call raises. -/
def fetchW : String → Except String String := fun _ => Except.error "offline"

/-- The article `hitX` yields when its fetch fails. -/
def a1W : Article :=
  { position := 1, title := "T", url := "http://x", snippet := "snip",
    content_preview := "snip", content_length := 0, scraped := false }

/-- The article `hitY` yields at loop index 3 when its fetch fails. -/
def a3W : Article :=
  { position := 3, title := "Y", url := "http://y", snippet := "sy",
    content_preview := "sy", content_length := 0, scraped := false }

/-- A branch oracle whose `orthogonal_1` task raises and whose other tasks
return an empty report. -/
def rbW : Json → String → Except String BranchReport := fun _ qt =>
  if qt = "orthogonal_1" then Except.error "boom"
  else Except.ok { query_type := qt, query := none, error := none, articles := [],
                   num_articles := some 0, search_metadata := none }

/-- A synthesis generation oracle that always returns a report. -/
def genW : ResearchSummary → Except String String := fun _ => Except.ok "# Research Report"

/-- A successful branch report holding one article. -/
def reportW1 : BranchReport :=
  { query_type := "primary", query := some "q", error := none, articles := [a1W],
    num_articles := some 1, search_metadata := none }

/-- The ranked hits a branch scrapes: the top `n` organic hits on search
success, none on failure. -/
def topHits : HttpOutcome → Nat → List SearchHit
  | .ok organic _, n => organic.take n
  | .exn _, _ => []

/-! ## Helper lemmas -/

/-- Appending a non-empty string never yields the empty string. -/
theorem append_ne_empty (s t : String) (ht : 0 < t.length) : s ++ t ≠ "" := by
  intro hc
  have hl := congrArg String.length hc
  rw [String.length_append] at hl
  have : ("" : String).length = 0 := rfl
  omega

/-- `mkArticle` stamps the loop index as the article's position. -/
theorem mkArticle_position (idx : Nat) (hit : SearchHit) (f : String → Except String String)
    (a : Article) (h : mkArticle idx hit f = some a) : a.position = idx := by
  by_cases hu : hit.link.getD "" = ""
  · simp [mkArticle, hu] at h
  · simp [mkArticle, hu] at h
    subst h
    rfl

/-- A hit produces no article exactly when its `link` is absent or empty. -/
theorem mkArticle_eq_none_iff (idx : Nat) (hit : SearchHit) (f : String → Except String String) :
    mkArticle idx hit f = none ↔ hit.link.getD "" = "" := by
  by_cases hu : hit.link.getD "" = "" <;> simp [mkArticle, hu]

/-- Every article of the scraping loop records a position in the scanned
range and is built by `mkArticle` from the hit at that rank. -/
theorem buildArticlesFrom_mem (f : String → Except String String) (hits : List SearchHit) :
    ∀ k a, a ∈ buildArticlesFrom f k hits →
      k ≤ a.position ∧ a.position < k + hits.length ∧
      ∃ hit, hits[a.position - k]? = some hit ∧ mkArticle a.position hit f = some a := by
  induction hits with
  | nil => intro k a h; simp [buildArticlesFrom] at h
  | cons hit rest ih =>
    intro k a h
    simp only [buildArticlesFrom] at h
    cases hm : mkArticle k hit f with
    | none =>
      rw [hm] at h
      obtain ⟨h1, h2, hit', h3, h4⟩ := ih (k + 1) a h
      refine ⟨by omega, by simp only [List.length_cons]; omega, hit', ?_, h4⟩
      have hpos : a.position - k = (a.position - (k + 1)) + 1 := by omega
      rw [hpos, List.getElem?_cons_succ]
      exact h3
    | some a0 =>
      rw [hm] at h
      rcases List.mem_cons.mp h with rfl | h
      · have hp : a.position = k := mkArticle_position _ _ _ _ hm
        refine ⟨Nat.le_of_eq hp.symm, by simp only [List.length_cons]; omega, hit, ?_, ?_⟩
        · rw [hp]; simp
        · rw [hp]; exact hm
      · obtain ⟨h1, h2, hit', h3, h4⟩ := ih (k + 1) a h
        refine ⟨by omega, by simp only [List.length_cons]; omega, hit', ?_, h4⟩
        have hpos : a.position - k = (a.position - (k + 1)) + 1 := by omega
        rw [hpos, List.getElem?_cons_succ]
        exact h3

/-- Positions emitted by the scraping loop are strictly increasing. -/
theorem buildArticlesFrom_pairwise (f : String → Except String String) (hits : List SearchHit) :
    ∀ k, (buildArticlesFrom f k hits).Pairwise (fun a b => a.position < b.position) := by
  induction hits with
  | nil => intro k; simp [buildArticlesFrom]
  | cons hit rest ih =>
    intro k
    simp only [buildArticlesFrom]
    cases hm : mkArticle k hit f with
    | none => exact ih (k + 1)
    | some a0 =>
      refine List.Pairwise.cons ?_ (ih (k + 1))
      intro b hb
      have hb1 := (buildArticlesFrom_mem f rest (k + 1) b hb).1
      have hp := mkArticle_position _ _ _ _ hm
      omega

/-- The loop emits exactly one article per hit with a non-empty link. -/
theorem buildArticlesFrom_length (f : String → Except String String) (hits : List SearchHit) :
    ∀ k, (buildArticlesFrom f k hits).length =
      (hits.filter fun h => h.link.getD "" != "").length := by
  induction hits with
  | nil => intro k; rfl
  | cons hit rest ih =>
    intro k
    simp only [buildArticlesFrom]
    cases hm : mkArticle k hit f with
    | none =>
      have hu : hit.link.getD "" = "" := (mkArticle_eq_none_iff k hit f).mp hm
      simp [List.filter_cons, hu, ih (k + 1)]
    | some a0 =>
      have hu : ¬hit.link.getD "" = "" := by
        intro hc
        rw [(mkArticle_eq_none_iff k hit f).mpr hc] at hm
        exact Option.noConfusion hm
      simp [List.filter_cons, hu, ih (k + 1)]

/-- Under a full query set (three truthy query values) the fan-out settles
one report per query type, in canonical order. -/
theorem fanout_eq (refined : Json) (rb : Json → String → Except String BranchReport)
    (hp : pyTruthy (jsonGetD refined "primary" (Json.str "")) = true)
    (h1 : pyTruthy (jsonGetD refined "orthogonal_1" (Json.str "")) = true)
    (h2 : pyTruthy (jsonGetD refined "orthogonal_2" (Json.str "")) = true) :
    execute_parallel_research refined rb =
      [branchSettle refined rb "primary", branchSettle refined rb "orthogonal_1",
       branchSettle refined rb "orthogonal_2"] := by
  simp [execute_parallel_research, branchTasks, query_types_list, List.filterMap, hp, h1, h2,
    processResults, branchSettle]

/-! ## Claim theorems -/

/-- C1: for every refined query set whose three expanded query values are
non-empty (truthy), the fan-out returns exactly three branch reports in the
canonical order primary, orthogonal_1, orthogonal_2 — one settled report
per expanded query, each depending only on its own branch task — and a
fault raised by any branch task is converted at the fan-out boundary into
a report carrying that error text, tagged with that branch's query type,
with empty articles. -/
theorem execute_parallel_research_c1 (refined : Json)
    (rb : Json → String → Except String BranchReport)
    (hp : pyTruthy (jsonGetD refined "primary" (Json.str "")) = true)
    (h1 : pyTruthy (jsonGetD refined "orthogonal_1" (Json.str "")) = true)
    (h2 : pyTruthy (jsonGetD refined "orthogonal_2" (Json.str "")) = true) :
    execute_parallel_research refined rb =
      [branchSettle refined rb "primary", branchSettle refined rb "orthogonal_1",
       branchSettle refined rb "orthogonal_2"] ∧
    ∀ qt e, rb (jsonGetD refined qt (Json.str "")) qt = Except.error e →
      branchSettle refined rb qt =
        { query_type := qt, query := none, error := some e, articles := [],
          num_articles := none, search_metadata := none } := by
  refine ⟨fanout_eq refined rb hp h1 h2, ?_⟩
  intro qt e he
  simp [branchSettle, convertOutcome, he]

/-- C1 witness: the fan-out over the fallback query set, with the
orthogonal_1 task raising, yields the three settled reports in canonical
order. -/
theorem execute_parallel_research_c1_witness :
    execute_parallel_research (fallbackJson "q") rbW =
      [branchSettle (fallbackJson "q") rbW "primary",
       branchSettle (fallbackJson "q") rbW "orthogonal_1",
       branchSettle (fallbackJson "q") rbW "orthogonal_2"] :=
  (execute_parallel_research_c1 (fallbackJson "q") rbW (by decide) (by decide) (by decide)).1

/-- C2 counterexample: on the well-formed JSON output `\x7b"foo": 1\x7d`,
which is missing the required key `primary`, `_refine_queries` does raise —
the `except` clause catches only `json.JSONDecodeError`, so the `KeyError`
from the `refined["primary"]` status-log subscript escapes; the claim that
it never raises on such output is false. -/
theorem refine_queries_c2_counterexample :
    refine_queries "quantum computing" "\x7b\"foo\": 1\x7d" =
      Except.error (PyErr.keyError "primary") := by rfl

/-- C2 (amended): for every generation output that fails JSON parsing
after fence stripping — non-JSON text, or a fenced block whose content is
not JSON — `_refine_queries` does not raise and returns the deterministic
fallback query set, whose four query-string fields are non-empty whenever
the user query is; but well-formed JSON missing a required key raises an
uncaught `KeyError` instead (see the counterexample). -/
theorem refine_queries_c2_amended (q rt : String) (h : jsonParse (stripResponse rt) = none) :
    refine_queries q rt = Except.ok (fallbackJson q) ∧
    (q ≠ "" →
      pyTruthy (jsonGetD (fallbackJson q) "original" (Json.str "")) = true ∧
      pyTruthy (jsonGetD (fallbackJson q) "primary" (Json.str "")) = true ∧
      pyTruthy (jsonGetD (fallbackJson q) "orthogonal_1" (Json.str "")) = true ∧
      pyTruthy (jsonGetD (fallbackJson q) "orthogonal_2" (Json.str "")) = true) := by
  constructor
  · simp [refine_queries, h]
  · intro hq
    have hb : (q != "") = true := bne_iff_ne.mpr hq
    refine ⟨hb, hb, ?_, ?_⟩
    · show ((q ++ " latest research") != "") = true
      exact bne_iff_ne.mpr (append_ne_empty q " latest research" (by decide))
    · show ((q ++ " expert analysis") != "") = true
      exact bne_iff_ne.mpr (append_ne_empty q " expert analysis" (by decide))

/-- C2 witness: plain prose triggers the fallback and the resulting
primary query is non-empty. -/
theorem refine_queries_c2_witness :
    refine_queries "quantum computing" "I would suggest searching for recent papers." =
      Except.ok (fallbackJson "quantum computing") ∧
    pyTruthy (jsonGetD (fallbackJson "quantum computing") "primary" (Json.str "")) = true :=
  ⟨(refine_queries_c2_amended "quantum computing"
      "I would suggest searching for recent papers." (by rfl)).1,
   ((refine_queries_c2_amended "quantum computing"
      "I would suggest searching for recent papers." (by rfl)).2 (by decide)).2.1⟩

/-- C3: whenever the fallback triggers (the generation output fails JSON
parsing), the returned query set has primary equal to the original query
verbatim, orthogonal_1 equal to the original plus the fixed
" latest research" recency qualifier, orthogonal_2 equal to the original
plus the fixed " expert analysis" qualifier, and the three static
placeholder reasoning strings. -/
theorem refine_queries_c3 (q rt : String) (h : jsonParse (stripResponse rt) = none) :
    refine_queries q rt = Except.ok (fallbackJson q) ∧
    jsonGetD (fallbackJson q) "primary" (Json.str "") = Json.str q ∧
    jsonGetD (fallbackJson q) "orthogonal_1" (Json.str "") =
      Json.str (q ++ " latest research") ∧
    jsonGetD (fallbackJson q) "orthogonal_2" (Json.str "") =
      Json.str (q ++ " expert analysis") ∧
    jsonGetD (fallbackJson q) "reasoning" (Json.str "") =
      Json.obj [("primary", Json.str "Using original query"),
                ("orthogonal_1", Json.str "Latest research angle"),
                ("orthogonal_2", Json.str "Expert analysis angle")] :=
  ⟨by simp [refine_queries, h], rfl, rfl, rfl, rfl⟩

/-- C3 witness: a prose response triggers the fallback, whose orthogonal_1
is the original query plus the recency qualifier. -/
theorem refine_queries_c3_witness :
    refine_queries "ai safety" "Sorry, I cannot produce JSON today." =
      Except.ok (fallbackJson "ai safety") ∧
    jsonGetD (fallbackJson "ai safety") "orthogonal_1" (Json.str "") =
      Json.str ("ai safety" ++ " latest research") :=
  ⟨(refine_queries_c3 "ai safety" "Sorry, I cannot produce JSON today." (by rfl)).1,
   (refine_queries_c3 "ai safety" "Sorry, I cannot produce JSON today." (by rfl)).2.2.1⟩

/-- C4: a transport or status exception inside `serper_search` is captured
as a failure value carrying the query and the error text with an empty
result list, never propagated; and a branch whose search failed or
returned zero hits returns — without raising and without any retry (the
single search outcome fully determines the report) — a branch report with
empty articles and a populated error string. -/
theorem serper_search_c4 (q msg : String) :
    (serper_search q (HttpOutcome.exn msg) =
      { query := q, num_results := none, results := [], search_metadata := none,
        error := some msg }) ∧
    (∀ (qt : String) (n : Nat) (fetch : String → Except String String),
      run_research_subagent q qt n (HttpOutcome.exn msg) fetch =
        { query_type := qt, query := some q, error := some msg, articles := [],
          num_articles := none, search_metadata := none }) ∧
    (∀ (qt : String) (n : Nat) (fetch : String → Except String String) (params : Json),
      run_research_subagent q qt n (HttpOutcome.ok [] params) fetch =
        { query_type := qt, query := some q, error := some "No results found",
          articles := [], num_articles := none, search_metadata := none }) :=
  ⟨rfl, fun _ _ _ => rfl, fun _ _ _ _ => rfl⟩

/-- C5 counterexample: a successful fetch of the 2-character content "hi"
(shorter than the 500-character budget, so not truncated) still yields
`content_preview = "hi..."` — the ellipsis marker is appended
unconditionally, so "trailing ellipsis present only when truncated" is
false. -/
theorem mkArticle_c5_counterexample :
    mkArticle 1 hitX (fun _ => Except.ok "hi") =
      some { position := 1, title := "T", url := "http://x", snippet := "snip",
             content_preview := "hi...", content_length := 2, scraped := true } ∧
    ("hi" : String).length ≤ 500 ∧ ("hi..." : String) ≠ "hi" :=
  ⟨rfl, by decide, by decide⟩

/-- C5 (amended): for a hit with a link, a successful non-empty fetch
yields an article with `scraped = true` and `content_preview` equal to the
content truncated to 500 characters with the ellipsis marker always
appended (even when nothing was truncated); a failed or empty fetch still
yields the article, with `scraped = false` and `content_preview` equal to
the hit's snippet; and the article depends only on the fetch result at its
own URL, so sibling articles are unaffected. -/
theorem mkArticle_c5_amended (idx : Nat) (hit : SearchHit)
    (fetch : String → Except String String) (h : hit.link.getD "" ≠ "") :
    (∀ e, fetch (hit.link.getD "") = Except.error e →
      mkArticle idx hit fetch = some
        { position := idx, title := hit.title.getD "No title", url := hit.link.getD "",
          snippet := hit.snippet.getD "", content_preview := hit.snippet.getD "",
          content_length := 0, scraped := false }) ∧
    (fetch (hit.link.getD "") = Except.ok "" →
      mkArticle idx hit fetch = some
        { position := idx, title := hit.title.getD "No title", url := hit.link.getD "",
          snippet := hit.snippet.getD "", content_preview := hit.snippet.getD "",
          content_length := 0, scraped := false }) ∧
    (∀ c, c ≠ "" → fetch (hit.link.getD "") = Except.ok c →
      mkArticle idx hit fetch = some
        { position := idx, title := hit.title.getD "No title", url := hit.link.getD "",
          snippet := hit.snippet.getD "", content_preview := pyTake 500 c ++ "...",
          content_length := c.length, scraped := true }) ∧
    (∀ g : String → Except String String, g (hit.link.getD "") = fetch (hit.link.getD "") →
      mkArticle idx hit g = mkArticle idx hit fetch) := by
  refine ⟨?_, ?_, ?_, ?_⟩
  · intro e he
    simp [mkArticle, h, he, fetch_url_content, pyTruthyStr]
  · intro he
    simp [mkArticle, h, he, fetch_url_content, pyTruthyStr]
  · intro c hc he
    simp [mkArticle, h, he, fetch_url_content, hc, pyTruthyStr, bne_iff_ne]
  · intro g hg
    simp [mkArticle, h, hg]

/-- C5 witness: a failed fetch still emits the article, snippet-backed and
unscraped. -/
theorem mkArticle_c5_witness :
    mkArticle 1 hitX (fun _ => Except.error "connection reset") =
      some { position := 1, title := "T", url := "http://x", snippet := "snip",
             content_preview := "snip", content_length := 0, scraped := false } :=
  (mkArticle_c5_amended 1 hitX (fun _ => Except.error "connection reset")
    (by decide)).1 "connection reset" rfl

/-- C6: every branch report carries the input query type tag, holds at most
`num_results` articles in strictly increasing position order, and each
article is built by the scraping step from the hit at its own rank among
the top `num_results` hits — i.e. articles appear in the original provider
rank order. -/
theorem run_research_subagent_c6 (q qt : String) (n : Nat) (http : HttpOutcome)
    (fetch : String → Except String String) :
    (run_research_subagent q qt n http fetch).query_type = qt ∧
    (run_research_subagent q qt n http fetch).articles.length ≤ n ∧
    (run_research_subagent q qt n http fetch).articles.Pairwise
      (fun a b => a.position < b.position) ∧
    ∀ a ∈ (run_research_subagent q qt n http fetch).articles,
      ∃ hit, (topHits http n)[a.position - 1]? = some hit ∧
        mkArticle a.position hit fetch = some a := by
  cases http with
  | exn msg =>
    exact ⟨rfl, by simp [run_research_subagent, serper_search],
           by simp [run_research_subagent, serper_search],
           by simp [run_research_subagent, serper_search]⟩
  | ok organic params =>
    cases organic with
    | nil =>
      exact ⟨rfl, by simp [run_research_subagent, serper_search],
             by simp [run_research_subagent, serper_search],
             by simp [run_research_subagent, serper_search]⟩
    | cons x xs =>
      refine ⟨rfl, ?_, ?_, ?_⟩
      · show (buildArticlesFrom fetch 1 ((x :: xs).take n)).length ≤ n
        rw [buildArticlesFrom_length fetch ((x :: xs).take n) 1]
        exact Nat.le_trans (List.length_filter_le _ _) (List.length_take_le n (x :: xs))
      · exact buildArticlesFrom_pairwise fetch ((x :: xs).take n) 1
      · intro a ha
        obtain ⟨h1, h2, hit, h3, h4⟩ :=
          buildArticlesFrom_mem fetch ((x :: xs).take n) 1 a ha
        exact ⟨hit, h3, h4⟩

/-- C6 witness: a one-hit branch run keeps the tag, stays within the
limit, and its single article corresponds to the rank-1 hit. -/
theorem run_research_subagent_c6_witness :
    (run_research_subagent "q" "primary" 5 httpW fetchW).query_type = "primary" ∧
    (run_research_subagent "q" "primary" 5 httpW fetchW).articles.length ≤ 5 ∧
    ∃ hit, (topHits httpW 5)[a1W.position - 1]? = some hit ∧
      mkArticle a1W.position hit fetchW = some a1W :=
  ⟨(run_research_subagent_c6 "q" "primary" 5 httpW fetchW).1,
   (run_research_subagent_c6 "q" "primary" 5 httpW fetchW).2.1,
   (run_research_subagent_c6 "q" "primary" 5 httpW fetchW).2.2.2 a1W (by decide)⟩

/-- C7: the aggregate handed to the synthesis call carries the original
query and the full refined query set, one summary entry per branch report,
each holding at most 5 articles whose content previews are cut to at most
300 characters. -/
theorem build_research_summary_c7 (oq : String) (refined : Json) (rs : List BranchReport) :
    (build_research_summary oq refined rs).original_query = oq ∧
    (build_research_summary oq refined rs).refined_queries = refined ∧
    (build_research_summary oq refined rs).results_summary.length = rs.length ∧
    ∀ b ∈ (build_research_summary oq refined rs).results_summary,
      b.articles.length ≤ 5 ∧ ∀ s ∈ b.articles, s.content_preview.length ≤ 300 := by
  refine ⟨rfl, rfl, by simp [build_research_summary], ?_⟩
  intro b hb
  simp only [build_research_summary, List.mem_map] at hb
  obtain ⟨r, hr, rfl⟩ := hb
  constructor
  · show ((r.articles.take 5).map summarizeArticle).length ≤ 5
    rw [List.length_map]
    exact List.length_take_le 5 r.articles
  · intro s hs
    simp only [summarizeBranch, List.mem_map] at hs
    obtain ⟨a, ha, rfl⟩ := hs
    show (pyTake 300 a.content_preview).length ≤ 300
    show (a.content_preview.data.take 300).length ≤ 300
    exact List.length_take_le 300 a.content_preview.data

/-- C7 witness: the summary of a one-article report respects both
truncation budgets. -/
theorem build_research_summary_c7_witness :
    (summarizeBranch reportW1).articles.length ≤ 5 ∧
    (summarizeArticle a1W).content_preview.length ≤ 300 :=
  ⟨((build_research_summary_c7 "q" (Json.obj []) [reportW1]).2.2.2
      (summarizeBranch reportW1) (by decide)).1,
   ((build_research_summary_c7 "q" (Json.obj []) [reportW1]).2.2.2
      (summarizeBranch reportW1) (by decide)).2 (summarizeArticle a1W) (by decide)⟩

/-- C8: when query refinement succeeded and the query set is full, a
failing synthesis generation call makes the whole run fail (the
orchestrator returns the raw error and no result bundle — this call is not
shielded), while a run whose only failures are branch-local still returns
a complete bundle with three reports in which each failed branch shows
empty articles and a populated error string. -/
theorem research_with_orchestrator_c8 (sd q rt : String)
    (rb : Json → String → Except String BranchReport)
    (gen : ResearchSummary → Except String String) (refined : Json)
    (hr : refine_queries q rt = Except.ok refined)
    (hp : pyTruthy (jsonGetD refined "primary" (Json.str "")) = true)
    (h1 : pyTruthy (jsonGetD refined "orthogonal_1" (Json.str "")) = true)
    (h2 : pyTruthy (jsonGetD refined "orthogonal_2" (Json.str "")) = true) :
    (∀ e, gen (build_research_summary q refined (execute_parallel_research refined rb)) =
        Except.error e →
      research_with_orchestrator sd q rt rb gen = Except.error (PyErr.other e)) ∧
    (∀ t, gen (build_research_summary q refined (execute_parallel_research refined rb)) =
        Except.ok t →
      research_with_orchestrator sd q rt rb gen =
        Except.ok { session_dir := sd, queries := refined,
                    results := [branchSettle refined rb "primary",
                                branchSettle refined rb "orthogonal_1",
                                branchSettle refined rb "orthogonal_2"],
                    report := t } ∧
      ∀ qt e, rb (jsonGetD refined qt (Json.str "")) qt = Except.error e →
        (branchSettle refined rb qt).articles = [] ∧
        (branchSettle refined rb qt).error = some e) := by
  constructor
  · intro e he
    simp [research_with_orchestrator, hr, generate_report, he]
  · intro t ht
    refine ⟨?_, ?_⟩
    · rw [fanout_eq refined rb hp h1 h2] at ht
      simp [research_with_orchestrator, hr, generate_report, ht,
        fanout_eq refined rb hp h1 h2]
    · intro qt e he
      simp [branchSettle, convertOutcome, he]

/-- C8 witness: with query refinement falling back, one branch task
raising and synthesis succeeding, the run returns the complete
three-report bundle. -/
theorem research_with_orchestrator_c8_witness :
    research_with_orchestrator "research_sessions/x" "q" "no json here" rbW genW =
      Except.ok { session_dir := "research_sessions/x", queries := fallbackJson "q",
                  results := [branchSettle (fallbackJson "q") rbW "primary",
                              branchSettle (fallbackJson "q") rbW "orthogonal_1",
                              branchSettle (fallbackJson "q") rbW "orthogonal_2"],
                  report := "# Research Report" } :=
  ((research_with_orchestrator_c8 "research_sessions/x" "q" "no json here" rbW genW
      (fallbackJson "q") (by rfl) (by decide) (by decide) (by decide)).2
    "# Research Report" rfl).1

/-- C9: a hit whose link is absent or empty produces no article (no
emitted article carries its rank position), the emitted article count
equals the number of hits with a non-empty link, positions are strictly
increasing, and — as the concrete run with a linkless middle hit shows —
the positions may be non-consecutive, with a gap at the skipped rank. -/
theorem buildArticles_c9 (hits : List SearchHit) (fetch : String → Except String String) :
    ((buildArticlesFrom fetch 1 hits).length =
      (hits.filter fun h => h.link.getD "" != "").length) ∧
    (buildArticlesFrom fetch 1 hits).Pairwise (fun a b => a.position < b.position) ∧
    (∀ i hit, hits[i]? = some hit → hit.link.getD "" = "" →
      ∀ a ∈ buildArticlesFrom fetch 1 hits, a.position ≠ i + 1) ∧
    (buildArticlesFrom (fun _ => Except.error "offline") 1 [hitX, hitNoLink, hitY]).map
      Article.position = [1, 3] := by
  refine ⟨buildArticlesFrom_length fetch hits 1, buildArticlesFrom_pairwise fetch hits 1,
    ?_, by rfl⟩
  intro i hit hget hempty a ha hpos
  obtain ⟨h1, h2, hit', h3, h4⟩ := buildArticlesFrom_mem fetch hits 1 a ha
  rw [hpos, Nat.add_sub_cancel, hget] at h3
  have hhit : hit' = hit := by
    cases h3
    rfl
  rw [hpos, hhit] at h4
  rw [(mkArticle_eq_none_iff (i + 1) hit fetch).mpr hempty] at h4
  exact Option.noConfusion h4

/-- C9 witness: on the three-hit list with a linkless middle hit, two
articles are emitted and the rank-3 article does not occupy position 2. -/
theorem buildArticles_c9_witness :
    ((buildArticlesFrom (fun _ => Except.error "offline") 1 [hitX, hitNoLink, hitY]).length =
      ([hitX, hitNoLink, hitY].filter fun h => h.link.getD "" != "").length) ∧
    a3W.position ≠ 1 + 1 :=
  ⟨(buildArticles_c9 [hitX, hitNoLink, hitY] (fun _ => Except.error "offline")).1,
   (buildArticles_c9 [hitX, hitNoLink, hitY] (fun _ => Except.error "offline")).2.2.1
     1 hitNoLink (by decide) (by decide) a3W (by decide)⟩

/-- C10: a successful branch run emits `num_articles` equal to the length
of its articles list; the search-failure path and the fan-out fault
conversion emit no `num_articles` (modelled as `none`); and the report
consumer defaults a missing `num_articles` to 0 — so `num_articles`, when
present, always equals the article count. -/
theorem num_articles_c10 :
    (∀ (q qt : String) (n : Nat) (http : HttpOutcome)
        (fetch : String → Except String String),
      ((run_research_subagent q qt n http fetch).error = none →
        (run_research_subagent q qt n http fetch).num_articles =
          some (run_research_subagent q qt n http fetch).articles.length) ∧
      ((run_research_subagent q qt n http fetch).error ≠ none →
        (run_research_subagent q qt n http fetch).num_articles = none ∧
        (run_research_subagent q qt n http fetch).articles = [])) ∧
    (∀ (refined : Json) (rb : Json → String → Except String BranchReport)
        (qt : String) (e : String),
      rb (jsonGetD refined qt (Json.str "")) qt = Except.error e →
      (branchSettle refined rb qt).num_articles = none) ∧
    (∀ r : BranchReport, (summarizeBranch r).num_articles = r.num_articles.getD 0) := by
  refine ⟨?_, ?_, fun r => rfl⟩
  · intro q qt n http fetch
    cases http with
    | exn msg =>
      constructor
      · intro h
        simp [run_research_subagent, serper_search] at h
      · intro _
        exact ⟨rfl, rfl⟩
    | ok organic params =>
      cases organic with
      | nil =>
        constructor
        · intro h
          simp [run_research_subagent, serper_search] at h
        · intro _
          exact ⟨rfl, rfl⟩
      | cons x xs =>
        constructor
        · intro _
          rfl
        · intro h
          exact absurd rfl h
  · intro refined rb qt e he
    simp [branchSettle, convertOutcome, he]

/-- C10 witness: a successful one-hit run has `num_articles` equal to its
article count, and a fault-converted report has no `num_articles`. -/
theorem num_articles_c10_witness :
    (run_research_subagent "q" "primary" 5 httpW fetchW).num_articles =
      some (run_research_subagent "q" "primary" 5 httpW fetchW).articles.length ∧
    (branchSettle (fallbackJson "q") rbW "orthogonal_1").num_articles = none :=
  ⟨(num_articles_c10.1 "q" "primary" 5 httpW fetchW).1 rfl,
   num_articles_c10.2.1 (fallbackJson "q") rbW "orthogonal_1" "boom" rfl⟩
